import Mathlib

/-!
Verification development for the Zeeeepa/fastmcp template-driven task
dispatcher.  The repository submits templated prompts to a remote
"Codegen" execution backend and polls for completion.  This file embeds
the relevant Python functions as pure Lean definitions:

* `Fmt` — the behaviour of the Python method `str.format(context=...)` on the
  templates of this repository (`codegen_mcp_callable.py` line 188 and 432,
  `mcp_server.py` line 155).
* `CallableLib` — `CodegenMCPCallable` from `codegen_mcp_callable.py`:
  the template registry operations and the `_execute_template` /
  `execute_custom_template` submit-poll-timeout loop.
* `CodegenMcpServer` — `run_codegen_task` from `codegen_mcp_server.py`.
* `CodegenAgentLib` — `Agent` / `CodegenTask` from
  `src/fastmcp/contrib/codegen_agent/agent.py`.
* `MockCodegen` — `mock_codegen.py`.
* `McpServer` — the FastAPI endpoints of `mcp_server.py`.

Stateful Python code is embedded by explicit state passing; network
interactions are supplied as oracle values / traces (`Except`-valued:
`.error e` models a raised transport exception with message `e`);
wall-clock readings are supplied as explicit elapsed-time inputs.
-/

/-- The character `{` (written via its code point so that format-string
processing never puts a brace character in the source text). -/
def lbrace : Char := Char.ofNat 123

/-- The character `}` (written via its code point). -/
def rbrace : Char := Char.ofNat 125

/-- Key lookup in an association list, modelling Python `dict` key access
(`d[k]`) and membership (`k in d`, via `Option.isSome`). -/
def tlookup {β : Type} (k : String) : List (String × β) → Option β
  | [] => none
  | (k2, v) :: rest => if k = k2 then some v else tlookup k rest

/-- Operation `d[k] = v` on a Python dict: replace the value of `k` in place if the
key is present (keeping its position), otherwise append the new binding
at the end (Python dicts preserve insertion order). -/
def dictSet {β : Type} : List (String × β) → String → β → List (String × β)
  | [], k, v => [(k, v)]
  | (a, b) :: rest, k, v =>
    if a = k then (k, v) :: rest else (a, b) :: dictSet rest k v

/-- Operation `del d[k]` on a Python dict: remove the binding for `k` (keys are
unique by construction, so removing every occurrence is the same). -/
def dictDel {β : Type} : List (String × β) → String → List (String × β)
  | [], _ => []
  | (a, b) :: rest, k =>
    if a = k then dictDel rest k else (a, b) :: dictDel rest k

/-- The Python substring test `pat in s` on character lists. -/
def hasSubstrAux (pat : List Char) : List Char → Bool
  | [] => pat.isEmpty
  | c :: rest => pat.isPrefixOf (c :: rest) || hasSubstrAux pat rest

/-- The Python substring test `pat in s` on strings. -/
def hasSubstr (pat s : String) : Bool :=
  hasSubstrAux pat.data s.data

namespace Fmt

/-!
Model of the Python call `template.format(context=context)` as used by the
repository.  The templates of the repository contain either no replacement
field or exactly the field `\x7bcontext\x7d`, so the model handles:
doubled braces as escapes, the `context` replacement field, and a lone
`\x7b` / `\x7d` or any other replacement field as an error (Python raises
`ValueError` / `KeyError` there; the repository never formats such a
template).  Crucially — and this is what §4.1/§8 of the design turn on —
a template with NO replacement field formats to itself with no error.

The `fuel` argument only bounds the recursion; each step consumes at
least one character, so `fuel = template.length` always suffices.
-/

/-- The field name `context` followed by the closing brace, i.e. the tail
of the replacement field after its opening brace. -/
def contextFieldTail : List Char :=
  'c' :: 'o' :: 'n' :: 't' :: 'e' :: 'x' :: 't' :: [rbrace]

/-- One pass of Python `str.format` restricted to the keyword argument
`context`; processes the template character list left to right. -/
def fmtAux (ctx : List Char) : Nat → List Char → Except String (List Char)
  | _, [] => Except.ok []
  | 0, _ :: _ => Except.error "format: out of fuel"
  | fuel + 1, c :: rest =>
    if c = lbrace then
      match rest with
      | [] => Except.error "ValueError: Single brace encountered in format string"
      | c2 :: rest2 =>
        if c2 = lbrace then
          (fun out => lbrace :: out) <$> fmtAux ctx fuel rest2
        else if rest.take 8 = contextFieldTail then
          (fun out => ctx ++ out) <$> fmtAux ctx fuel (rest.drop 8)
        else
          Except.error "KeyError: replacement field other than context"
    else if c = rbrace then
      match rest with
      | [] => Except.error "ValueError: Single brace encountered in format string"
      | c2 :: rest2 =>
        if c2 = rbrace then
          (fun out => rbrace :: out) <$> fmtAux ctx fuel rest2
        else
          Except.error "ValueError: Single brace encountered in format string"
    else
      (fun out => c :: out) <$> fmtAux ctx fuel rest

/-- Python `template.format(context := ctx)`:  substitute `ctx` for every
`\x7bcontext\x7d` replacement field of `template`. -/
def pyFormatContext (template ctx : String) : Except String String :=
  (fmtAux ctx.data template.data.length template.data).map fun l => String.mk l

end Fmt

namespace CallableLib

/-!
Embedding of `CodegenMCPCallable` (`codegen_mcp_callable.py`).  The
instance state is the template dict `self.templates` (an association
list here) and the history list `self.task_history`; the Codegen SDK
`Agent` is an external collaborator supplied as an oracle (`BackendRun`).
-/

/-- Source constant `PR_CREATION_TEMPLATE` (`codegen_mcp_callable.py` lines 38-52). -/
def PR_CREATION_TEMPLATE : String :=
  "[PR CREATION TEMPLATE]\nYou are tasked with creating a GitHub Pull Request based on the following details.\n\nInstructions for PR creation:\n- Create a clear, concise title that summarizes the changes\n- Write a detailed description of the changes made\n- Include relevant ticket/issue numbers\n- List the key files modified and why\n- Mention any breaking changes or migration notes\n- Add appropriate labels and reviewers\n\nPlease analyze the following context and create a comprehensive PR:\n\n\x7bcontext\x7d\n"

/-- Source constant `LINEAR_ISSUES_TEMPLATE` (lines 54-68). -/
def LINEAR_ISSUES_TEMPLATE : String :=
  "[LINEAR ISSUE CREATION TEMPLATE]\nYou are tasked with creating a main Linear issue and appropriate sub-issues based on the following details.\n\nInstructions for Linear issue creation:\n- Create one main parent issue that encompasses the overall task\n- Break down the work into multiple discrete sub-issues\n- Each sub-issue should be clearly scoped with specific acceptance criteria\n- Add appropriate labels, priority levels, and assignees\n- Ensure dependencies between issues are clearly identified\n- Set reasonable estimates for each issue\n\nPlease analyze the following context and create a comprehensive set of Linear issues:\n\n\x7bcontext\x7d\n"

/-- Source constant `CODE_GENERATION_TEMPLATE` (lines 70-83). -/
def CODE_GENERATION_TEMPLATE : String :=
  "[CODE GENERATION TEMPLATE]\nYou are tasked with generating high-quality, optimized code based on the following specifications.\n\nInstructions for code generation:\n- Follow best practices and design patterns appropriate for the language\n- Write clean, maintainable code with appropriate comments\n- Consider edge cases and include error handling\n- Optimize for performance where relevant\n- Include usage examples and documentation\n\nPlease analyze the following context and generate the requested code:\n\n\x7bcontext\x7d\n"

/-- Source constant `DATA_ANALYSIS_TEMPLATE` (lines 85-98). -/
def DATA_ANALYSIS_TEMPLATE : String :=
  "[DATA ANALYSIS TEMPLATE]\nYou are tasked with analyzing data and providing meaningful insights based on the following details.\n\nInstructions for data analysis:\n- Understand the dataset structure and variables\n- Identify key patterns, trends, and anomalies\n- Apply appropriate statistical methods\n- Visualize results effectively\n- Provide actionable recommendations\n\nPlease analyze the following context and provide comprehensive data insights:\n\n\x7bcontext\x7d\n"

/-- Source constant `DOCUMENTATION_TEMPLATE` (lines 100-113). -/
def DOCUMENTATION_TEMPLATE : String :=
  "[DOCUMENTATION TEMPLATE]\nYou are tasked with creating comprehensive documentation based on the following details.\n\nInstructions for documentation:\n- Use clear, concise language\n- Structure content logically with appropriate headings\n- Include examples and code snippets where relevant\n- Address different user levels (beginners to advanced)\n- Consider both reference and tutorial aspects\n\nPlease analyze the following context and create comprehensive documentation:\n\n\x7bcontext\x7d\n"

/-- Source constant `TESTING_STRATEGY_TEMPLATE` (lines 115-128). -/
def TESTING_STRATEGY_TEMPLATE : String :=
  "[TESTING STRATEGY TEMPLATE]\nYou are tasked with developing a testing strategy based on the following details.\n\nInstructions for testing strategy:\n- Identify key test scenarios and edge cases\n- Recommend appropriate testing levels (unit, integration, e2e)\n- Suggest testing frameworks and tools\n- Consider performance and security testing needs\n- Outline validation criteria for success\n\nPlease analyze the following context and develop a comprehensive testing strategy:\n\n\x7bcontext\x7d\n"

/-- Transcription of `self.templates` as initialised in `CodegenMCPCallable.__init__`
(lines 158-165). -/
def initial_templates : List (String × String) :=
  [("pr_creation", PR_CREATION_TEMPLATE),
   ("linear_issues", LINEAR_ISSUES_TEMPLATE),
   ("code_generation", CODE_GENERATION_TEMPLATE),
   ("data_analysis", DATA_ANALYSIS_TEMPLATE),
   ("documentation", DOCUMENTATION_TEMPLATE),
   ("testing_strategy", TESTING_STRATEGY_TEMPLATE)]

/-- One observation of the Codegen SDK task after `task.refresh()`:
its `status` string and its `result` / `error` attributes. -/
structure Snapshot where
  status : String
  result : Option String
  error : Option String
deriving DecidableEq

/-- A value returned by `_execute_template` / `execute_custom_template`:
either the bare `task.result` (success path, line 225) or one of the
dicts of shape `\x7b"status": s, "message": m\x7d` (lines 233, 243, 247). -/
inductive Outcome
  | success (result : Option String)
  | statusMessage (status message : String)
deriving DecidableEq

/-- Result of a call: a raised exception (`raise` escaping the function),
a returned value together with the final status field of the
history entry (`none` if no entry was appended), or `undetermined` when
the supplied poll trace ends before the loop does. -/
inductive ExecResult
  | raised (msg : String)
  | returned (out : Outcome) (hist : Option String)
  | undetermined
deriving DecidableEq

/-- Result of the polling loop seen from inside the `try` block. -/
inductive LoopRes
  | ret (out : Outcome) (hist : String)
  | exn (e : String)
  | more
deriving DecidableEq

/-- The backend oracle: what `self.agent.run(prompt)` returns (the task id,
or a raised exception), and, for each iteration of the polling loop, the
elapsed wall-clock seconds at the `while` check paired with the outcome of
`task.refresh()` (a snapshot, or a raised exception). -/
structure BackendRun where
  submit : String → Except String String
  polls : List (Nat × Except String Snapshot)

/-- The polling loop of `_execute_template` (lines 216-243):
`while time.time() - start_time < self.timeout:` refresh, return
`task.result` on status `"completed"`, return a failure dict on status
`"failed"`, otherwise sleep and loop; after the loop, return the timeout
dict.  Each list element supplies one iteration; when the `while`
condition fails the refresh observation of that element is unused. -/
def pollLoopAux (timeout : Nat) (task_id : String) :
    List (Nat × Except String Snapshot) → LoopRes
  | [] => LoopRes.more
  | (elapsed, r) :: rest =>
    if elapsed < timeout then
      match r with
      | Except.error e => LoopRes.exn e
      | Except.ok s =>
        if s.status = "completed" then
          LoopRes.ret (Outcome.success s.result) "completed"
        else if s.status = "failed" then
          LoopRes.ret
            (Outcome.statusMessage "failed"
              ("Task " ++ task_id ++ " failed with status: " ++ s.status))
            "failed"
        else
          pollLoopAux timeout task_id rest
    else
      LoopRes.ret
        (Outcome.statusMessage "timeout"
          ("Task " ++ task_id ++ " timed out after " ++ toString timeout ++ " seconds"))
        "timeout"

/-- The successive values assigned to the status field of the history
entry appended by `_execute_template` (the entry starts as `'pending'`,
lines 203-210), in order of assignment, during the polling loop of
lines 216-243: the completed branch (line 222), the failed branch
(line 229) and the timeout exit (line 239) each assign once and
immediately `return`; the exception handler of lines 245-247 assigns
nothing.  A call writes only to the entry it itself appended — no other
history entry is named anywhere in the function. -/
def pollLoopWrites (timeout : Nat) :
    List (Nat × Except String Snapshot) → List String
  | [] => []
  | (elapsed, r) :: rest =>
    if elapsed < timeout then
      match r with
      | Except.error _ => []
      | Except.ok s =>
        if s.status = "completed" then ["completed"]
        else if s.status = "failed" then ["failed"]
        else pollLoopWrites timeout rest
    else ["timeout"]

/-- Appending the serialized additional parameters to the rendered prompt
(lines 191-192); the `json.dumps` output is supplied as an opaque string. -/
def appendParams (base : String) : Option String → String
  | none => base
  | some s => base ++ "\n\nAdditional Parameters: " ++ s

/-- The `try` block shared verbatim by `_execute_template` (lines 197-247)
and `execute_custom_template` (lines 441-491): submit the prompt, append
the pending history entry, run the polling loop, and convert any raised
exception into the `\x7b"status": "error", "message": str(e)\x7d` dict.
On a submit exception no history entry has been appended yet; on a poll
exception the entry keeps its initial pending status because the
handler does not touch it. -/
def submitAndPoll (timeout : Nat) (prompt : String) (backend : BackendRun) : ExecResult :=
  match backend.submit prompt with
  | Except.error e => ExecResult.returned (Outcome.statusMessage "error" e) none
  | Except.ok task_id =>
    match pollLoopAux timeout task_id backend.polls with
    | LoopRes.ret out h => ExecResult.returned out (some h)
    | LoopRes.exn e => ExecResult.returned (Outcome.statusMessage "error" e) (some "pending")
    | LoopRes.more => ExecResult.undetermined

/-- Embeds `CodegenMCPCallable._execute_template` (lines 170-247).  The unknown
template key check and the prompt rendering sit before the `try` block, so
their exceptions propagate out of the call (`ExecResult.raised`). -/
def execute_template (templates : List (String × String)) (timeout : Nat)
    (template_key context : String) (additional_params : Option String)
    (backend : BackendRun) : ExecResult :=
  match tlookup template_key templates with
  | none => ExecResult.raised ("Unknown template key: " ++ template_key)
  | some tmpl =>
    match Fmt.pyFormatContext tmpl context with
    | Except.error e => ExecResult.raised e
    | Except.ok base =>
      submitAndPoll timeout (appendParams base additional_params) backend

/-- Embeds `CodegenMCPCallable.execute_custom_template` (lines 419-491): same as
`_execute_template` but with the template string supplied directly and no
registry lookup. -/
def execute_custom_template (timeout : Nat) (template context : String)
    (additional_params : Option String) (backend : BackendRun) : ExecResult :=
  match Fmt.pyFormatContext template context with
  | Except.error e => ExecResult.raised e
  | Except.ok base =>
    submitAndPoll timeout (appendParams base additional_params) backend

/-- Embeds `CodegenMCPCallable.get_template` (lines 327-342). -/
def get_template (templates : List (String × String)) (template_key : String) :
    Except String String :=
  match tlookup template_key templates with
  | none => Except.error ("Unknown template key: " ++ template_key)
  | some v => Except.ok v

/-- Embeds `CodegenMCPCallable.set_template` (lines 344-353). -/
def set_template (templates : List (String × String)) (template_key template : String) :
    List (String × String) :=
  dictSet templates template_key template

/-- Embeds `CodegenMCPCallable.add_template` (lines 355-369). -/
def add_template (templates : List (String × String)) (template_key template : String) :
    Except String (List (String × String)) :=
  if (tlookup template_key templates).isSome then
    Except.error
      ("Template key \x27" ++ template_key ++ "\x27 already exists. Use set_template to update it.")
  else
    Except.ok (dictSet templates template_key template)

/-- The protected `default_templates` list of `delete_template`
(lines 384-385). -/
def default_template_keys : List String :=
  ["pr_creation", "linear_issues", "code_generation",
   "data_analysis", "documentation", "testing_strategy"]

/-- Embeds `CodegenMCPCallable.delete_template` (lines 371-392): unknown keys and
protected default keys raise `ValueError`; otherwise the key is removed. -/
def delete_template (templates : List (String × String)) (template_key : String) :
    Except String (List (String × String)) :=
  if (tlookup template_key templates).isNone then
    Except.error ("Unknown template key: " ++ template_key)
  else if template_key ∈ default_template_keys then
    Except.error ("Cannot delete default template: " ++ template_key)
  else
    Except.ok (dictDel templates template_key)

/-- A template-registry mutation, for quantifying over call orders. -/
inductive TOp
  | set (k v : String)
  | add (k v : String)
  | del (k : String)

/-- Effect of one registry call on `self.templates`; a call that raises
leaves the dict unchanged. -/
def applyOp (m : List (String × String)) : TOp → List (String × String)
  | TOp.set k v => set_template m k v
  | TOp.add k v =>
    match add_template m k v with
    | Except.ok m2 => m2
    | Except.error _ => m
  | TOp.del k =>
    match delete_template m k with
    | Except.ok m2 => m2
    | Except.error _ => m

/-- Effect of a sequence of registry calls, in order. -/
def runOps (m : List (String × String)) : List TOp → List (String × String)
  | [] => m
  | op :: rest => runOps (applyOp m op) rest

end CallableLib

namespace CodegenMcpServer

/-!
Embedding of `run_codegen_task` (`codegen_mcp_server.py` lines 107-180).
The `TEMPLATES` dict is keyed by endpoint id; only each entry has its
`"template"` field is modelled (the `"name"` / `"description"` fields are
own display metadata, never read by the logic of `run_codegen_task` beyond
docstring decoration).
-/

/-- The `TEMPLATES` mapping (lines 49-80), template id → template string. -/
def TEMPLATES : List (String × String) :=
  [("create_pr",
    "\x7bPromptTemplate1(withPRsettinginstructions(ihavethispromptmyself)+agentinputquery\x7d"),
   ("create_linear_issues",
    "\x7bPromptTemplate2(withLinearsettinginstructions(ihavethispromptmyself)+agentinputquery\x7d"),
   ("endpoint3", "\x7bPromptTemplate3+agentinputquery\x7d"),
   ("endpoint4", "\x7bPromptTemplate4+agentinputquery\x7d"),
   ("endpoint5", "\x7bPromptTemplate5+agentinputquery\x7d"),
   ("endpoint6", "\x7bPromptTemplate6+agentinputquery\x7d")]

/-- Result of a `run_codegen_task` call: an exception escaping the
coroutine, the returned dict
`\x7b"status", "result", "template_id", "query"\x7d`, or `undetermined`
when the supplied poll trace ends while `while True` would keep going
(this loop has no timeout). -/
inductive SrvResult
  | raised (msg : String)
  | returned (status : String) (result : Option String) (template_id query : String)
  | undetermined
deriving DecidableEq

/-- The `while True` polling loop (lines 156-172): refresh, break on
status `"completed"`, `raise RuntimeError("Task failed")` on status
`"failed"`, otherwise sleep and loop.  A transport exception raised by
`task.refresh()` propagates (there is no `try` around the loop).
`none` = trace exhausted with the loop still running. -/
def srvPollLoop : List (Except String CallableLib.Snapshot) →
    Option (Except String (Option String))
  | [] => none
  | Except.error e :: _ => some (Except.error e)
  | Except.ok s :: rest =>
    if s.status = "completed" then some (Except.ok s.result)
    else if s.status = "failed" then some (Except.error "Task failed")
    else srvPollLoop rest

/-- Embeds `run_codegen_task` (lines 107-180): template lookup, credential
check, prompt construction by `str.replace`, submission, polling loop,
and the final result dict.  No exception is caught anywhere in the body:
every `Except.error` of the oracles becomes `SrvResult.raised`. -/
def run_codegen_task (template_id query : String) (have_credentials : Bool)
    (submit : String → Except String Unit)
    (polls : List (Except String CallableLib.Snapshot)) : SrvResult :=
  match tlookup template_id TEMPLATES with
  | none => SrvResult.raised ("Template \x27" ++ template_id ++ "\x27 not found")
  | some template =>
    if have_credentials then
      let prompt := template.replace "agentinputquery" query
      match submit prompt with
      | Except.error e => SrvResult.raised e
      | Except.ok _ =>
        match srvPollLoop polls with
        | none => SrvResult.undetermined
        | some (Except.error e) => SrvResult.raised e
        | some (Except.ok r) => SrvResult.returned "completed" r template_id query
    else
      SrvResult.raised
        "Missing Codegen credentials. Provide org_id and token parameters or set CODEGEN_ORG_ID and CODEGEN_API_TOKEN environment variables."

end CodegenMcpServer

namespace CodegenAgentLib

/-!
Embedding of `src/fastmcp/contrib/codegen_agent/agent.py`.  HTTP
interactions are oracles mapping the request payload (the prompt for
`POST /agents/run`, the task id for `GET /agents/tasks/...`) to either a
response or a raised transport error (`httpx.RequestError`, whose message
the code wraps as "Error connecting to Codegen API: ...").  Statuses are
the raw strings of the `TaskStatus` str-enum.
-/

/-- State of a `CodegenTask`: `task_id`, `status`, `result`, `error`
(lines 51-69). -/
structure CodegenTask where
  task_id : String
  status : String
  result : Option String
  error : Option String
deriving DecidableEq

/-- Constructor `CodegenTask(task_id)` with the default initial status
`TaskStatus.PENDING` and empty result/error. -/
def CodegenTask.new (task_id : String) : CodegenTask :=
  { task_id := task_id, status := "pending", result := none, error := none }

/-- The mock-mode status update block, textually repeated at agent.py
lines 82-86, 99-103, 288-292 and 350-354: Pending → Running,
Running → Completed with the placeholder result
`"Simulated result for task \x7btask_id\x7d"`, anything else unchanged. -/
def mock_step (t : CodegenTask) : CodegenTask :=
  if t.status = "pending" then { t with status := "running" }
  else if t.status = "running" then
    { t with status := "completed",
             result := some ("Simulated result for task " ++ t.task_id) }
  else t

/-- Iterates `n` successive mock-mode refreshes. -/
def mockIter : Nat → CodegenTask → CodegenTask
  | 0, t => t
  | n + 1, t => mockIter n (mock_step t)

/-- A response to `POST /agents/run`: HTTP status code, raw text, and the
`task_id` field of the JSON body (`none` when absent; Python also treats
an empty string as missing via `if not task_id`). -/
structure RunResp where
  status_code : Nat
  text : String
  task_id : Option String
deriving DecidableEq

/-- Embeds `Agent.run` (lines 136-204).  In mock mode a local handle
`mock_task_\x7buuid4()\x7d` is synthesized with NO use of the HTTP oracle
(the `uuid` argument stands for the `uuid.uuid4()` draw); otherwise the
task is created via the API with the error taxonomy of lines 176-204. -/
def Agent.run (mock_mode : Bool) (prompt uuid : String)
    (http : String → Except String RunResp) : Except String CodegenTask :=
  if mock_mode then
    Except.ok { task_id := "mock_task_" ++ uuid, status := "pending",
                result := none, error := none }
  else
    match http prompt with
    | Except.error e => Except.error ("Error connecting to Codegen API: " ++ e)
    | Except.ok resp =>
      if resp.status_code ≠ 200 then
        Except.error ("Error creating task: " ++ toString resp.status_code ++ " - " ++ resp.text)
      else
        let tid := resp.task_id.getD ""
        if tid = "" then Except.error "No task_id in response"
        else Except.ok { task_id := tid, status := "pending", result := none, error := none }

/-- Embeds `Agent.run_async` (lines 206-274): the awaitable variant, transcribed
separately from its own source text (which duplicates `run` verbatim up
to `httpx.AsyncClient`/`await`). -/
def Agent.run_async (mock_mode : Bool) (prompt uuid : String)
    (http : String → Except String RunResp) : Except String CodegenTask :=
  if mock_mode then
    Except.ok { task_id := "mock_task_" ++ uuid, status := "pending",
                result := none, error := none }
  else
    match http prompt with
    | Except.error e => Except.error ("Error connecting to Codegen API: " ++ e)
    | Except.ok resp =>
      if resp.status_code ≠ 200 then
        Except.error ("Error creating task: " ++ toString resp.status_code ++ " - " ++ resp.text)
      else
        let tid := resp.task_id.getD ""
        if tid = "" then Except.error "No task_id in response"
        else Except.ok { task_id := tid, status := "pending", result := none, error := none }

/-- A response to `GET /agents/tasks/\x7btask_id\x7d`: HTTP status code,
raw text, and the optional `status` / `result` / `error` JSON fields. -/
structure RefreshResp where
  status_code : Nat
  text : String
  status : Option String
  result : Option String
  error_detail : Option String
deriving DecidableEq

/-- Embeds `Agent.refresh_task_sync` (lines 276-336).  Mock mode performs the
in-place mock status update; live mode overwrites `task.status` with the
`status` field of the response (defaulting to the old status), then sets
`result` on `"completed"` or `error` (defaulting to `"Unknown error"`)
on `"failed"` / `"error"`. -/
def Agent.refresh_task_sync (mock_mode : Bool) (t : CodegenTask)
    (http : String → Except String RefreshResp) : Except String CodegenTask :=
  if mock_mode then
    Except.ok
      (if t.status = "pending" then { t with status := "running" }
       else if t.status = "running" then
         { t with status := "completed",
                  result := some ("Simulated result for task " ++ t.task_id) }
       else t)
  else
    match http t.task_id with
    | Except.error e => Except.error ("Error connecting to Codegen API: " ++ e)
    | Except.ok resp =>
      if resp.status_code ≠ 200 then
        Except.error ("Error refreshing task: " ++ toString resp.status_code ++ " - " ++ resp.text)
      else
        let st := resp.status.getD t.status
        let t1 := { t with status := st }
        Except.ok
          (if st = "completed" then { t1 with result := resp.result }
           else if st = "failed" ∨ st = "error" then
             { t1 with error := some (resp.error_detail.getD "Unknown error") }
           else t1)

/-- Embeds `Agent.refresh_task` (lines 338-398): the awaitable variant,
transcribed separately from its own source text. -/
def Agent.refresh_task (mock_mode : Bool) (t : CodegenTask)
    (http : String → Except String RefreshResp) : Except String CodegenTask :=
  if mock_mode then
    Except.ok
      (if t.status = "pending" then { t with status := "running" }
       else if t.status = "running" then
         { t with status := "completed",
                  result := some ("Simulated result for task " ++ t.task_id) }
       else t)
  else
    match http t.task_id with
    | Except.error e => Except.error ("Error connecting to Codegen API: " ++ e)
    | Except.ok resp =>
      if resp.status_code ≠ 200 then
        Except.error ("Error refreshing task: " ++ toString resp.status_code ++ " - " ++ resp.text)
      else
        let st := resp.status.getD t.status
        let t1 := { t with status := st }
        Except.ok
          (if st = "completed" then { t1 with result := resp.result }
           else if st = "failed" ∨ st = "error" then
             { t1 with error := some (resp.error_detail.getD "Unknown error") }
           else t1)

/-- Embeds `CodegenTask.refresh_sync` (lines 88-103): delegate to the owning
agent when present, else run the mock status update locally. -/
def CodegenTask.refresh_sync
    (agent : Option (Bool × (String → Except String RefreshResp)))
    (t : CodegenTask) : Except String CodegenTask :=
  match agent with
  | some (mock_mode, http) => Agent.refresh_task_sync mock_mode t http
  | none =>
    Except.ok
      (if t.status = "pending" then { t with status := "running" }
       else if t.status = "running" then
         { t with status := "completed",
                  result := some ("Simulated result for task " ++ t.task_id) }
       else t)

/-- A `CodegenTask` status is terminal in the sense of design §3
when it is `completed`, `failed` or `error` (this library has no
timed-out status of its own). -/
def isTerminal (s : String) : Bool :=
  s = "completed" || s = "failed" || s = "error"

end CodegenAgentLib

namespace MockCodegen

/-!
Embedding of `mock_codegen.py`.  The elapsed wall-clock seconds since
`Task.__init__` recorded `self._start_time` are supplied as an explicit
rational input to `refresh`.
-/

/-- The value of `Task.result` once `_generate_mock_result` ran: one of
six fixed placeholder dicts selected by the template marker found in the
prompt, or the fixed unknown-template dict.  Each constructor stands for
the corresponding constant dict of `mock_codegen.py` lines 75-408; the
dict contents are constants the lifecycle never inspects. -/
inductive MockResult
  | pr_creation
  | linear_issues
  | code_generation
  | data_analysis
  | documentation
  | testing_strategy
  | unknown_template
deriving DecidableEq

/-- Embeds `Task._generate_mock_result` (lines 40-73): detect the template type
by substring markers in the prompt, then pick the matching placeholder
dict (composition of the detection `if/elif` chain and the dispatch
chain). -/
def generate_mock_result (prompt : String) : MockResult :=
  if hasSubstr "[PR CREATION TEMPLATE]" prompt then MockResult.pr_creation
  else if hasSubstr "[LINEAR ISSUE CREATION TEMPLATE]" prompt then MockResult.linear_issues
  else if hasSubstr "[CODE GENERATION TEMPLATE]" prompt then MockResult.code_generation
  else if hasSubstr "[DATA ANALYSIS TEMPLATE]" prompt then MockResult.data_analysis
  else if hasSubstr "[DOCUMENTATION TEMPLATE]" prompt then MockResult.documentation
  else if hasSubstr "[TESTING STRATEGY TEMPLATE]" prompt then MockResult.testing_strategy
  else MockResult.unknown_template

/-- Mock `Task` state (lines 15-25): the prompt, the status string and
the optional generated result. -/
structure Task where
  prompt : String
  status : String
  result : Option MockResult
deriving DecidableEq

/-- Constructor `Task.__init__(prompt)`: status `"pending"`, no result. -/
def Task.new (prompt : String) : Task :=
  { prompt := prompt, status := "pending", result := none }

/-- Embeds `Task.refresh` (lines 27-38): status `"running"` while less than one
second has elapsed since construction, then `"completed"` with the
prompt-derived placeholder result. -/
def Task.refresh (elapsed : ℚ) (t : Task) : Task :=
  if elapsed < 1 then { t with status := "running" }
  else { t with status := "completed", result := some (generate_mock_result t.prompt) }

/-- Embeds `Agent.run` (lines 427-437): wrap the prompt in a fresh mock task. -/
def Agent.run (prompt : String) : Task :=
  Task.new prompt

end MockCodegen

namespace McpServer

/-!
Embedding of the FastAPI endpoints of `mcp_server.py`.  The module-level
`tasks` dict is passed explicitly; `uuid.uuid4()` and
`datetime.now().isoformat()` are supplied as inputs.  The FastAPI method
`BackgroundTasks.add_task` only REGISTERS a callable (to be run after the
response is sent), so it is modelled as returning the registered
job arguments as data, unexecuted.
-/

/-- One record of the `tasks` dict / `TaskResponse`
(`mcp_server.py` lines 29-35, 187-194). -/
structure TaskRec where
  task_id : String
  status : String
  result : Option String
  created_at : String
  completed_at : Option String
  endpoint : String
deriving DecidableEq

/-- The arguments `pr_creation_endpoint` passes to
`background_tasks.add_task(execute_agent_task, ...)` (lines 196-202). -/
structure BgJob where
  task_id : String
  endpoint : String
  context : String
  additional_params : Option String
deriving DecidableEq

/-- Embeds `pr_creation_endpoint` (lines 184-204): draw a fresh uuid, store a
Pending record with null result and null completion time, register the
background job, and return `TaskResponse(**tasks[task_id])` — the record
just stored.  The five sibling template endpoints (lines 206-314) are
identical up to the endpoint string.  The agent is never touched here;
all agent work is inside the registered `execute_agent_task` job. -/
def pr_creation_endpoint (tasks : List (String × TaskRec))
    (uuid now context : String) (additional_params : Option String) :
    List (String × TaskRec) × TaskRec × BgJob :=
  let entry : TaskRec :=
    { task_id := uuid, status := "pending", result := none,
      created_at := now, completed_at := none, endpoint := "pr_creation" }
  (dictSet tasks uuid entry, entry,
   { task_id := uuid, endpoint := "pr_creation",
     context := context, additional_params := additional_params })

end McpServer

set_option maxRecDepth 8000

/-! ### Association-list dictionary lemmas -/

theorem tlookup_dictSet_self {β : Type} (m : List (String × β)) (k : String) (v : β) :
    tlookup k (dictSet m k v) = some v := by
  induction m with
  | nil => simp [dictSet, tlookup]
  | cons p rest ih =>
    obtain ⟨a, b⟩ := p
    by_cases h : a = k
    · simp [dictSet, h, tlookup]
    · simp [dictSet, h, tlookup, ih, Ne.symm h]

theorem tlookup_dictSet_ne {β : Type} (m : List (String × β)) (k j : String) (v : β)
    (h : j ≠ k) : tlookup j (dictSet m k v) = tlookup j m := by
  induction m with
  | nil => simp [dictSet, tlookup, h]
  | cons p rest ih =>
    obtain ⟨a, b⟩ := p
    by_cases hak : a = k
    · subst hak
      simp [dictSet, tlookup, h]
    · simp [dictSet, hak, tlookup, ih]

theorem tlookup_dictDel_ne {β : Type} (m : List (String × β)) (k j : String)
    (h : j ≠ k) : tlookup j (dictDel m k) = tlookup j m := by
  induction m with
  | nil => simp [dictDel, tlookup]
  | cons p rest ih =>
    obtain ⟨a, b⟩ := p
    by_cases hak : a = k
    · subst hak
      simp [dictDel, tlookup, h, ih]
    · simp [dictDel, hak, tlookup, ih]

theorem dictSet_eq_append {β : Type} (m : List (String × β)) (k : String) (v : β)
    (h : tlookup k m = none) : dictSet m k v = m ++ [(k, v)] := by
  induction m with
  | nil => simp [dictSet]
  | cons p rest ih =>
    obtain ⟨a, b⟩ := p
    by_cases hak : a = k
    · subst hak
      simp [tlookup] at h
    · simp [tlookup, Ne.symm hak] at h
      simp [dictSet, hak, ih h]

/-! ### The protected default templates survive every registry call -/

theorem protected_isSome_applyOp (m : List (String × String)) (op : CallableLib.TOp)
    (k0 : String) (hk : k0 ∈ CallableLib.default_template_keys)
    (h : (tlookup k0 m).isSome = true) :
    (tlookup k0 (CallableLib.applyOp m op)).isSome = true := by
  cases op with
  | set k v =>
    by_cases hkk : k0 = k
    · subst hkk
      simp [CallableLib.applyOp, CallableLib.set_template, tlookup_dictSet_self]
    · simpa [CallableLib.applyOp, CallableLib.set_template,
        tlookup_dictSet_ne m k k0 v hkk] using h
  | add k v =>
    by_cases hex : (tlookup k m).isSome
    · simpa [CallableLib.applyOp, CallableLib.add_template, hex] using h
    · by_cases hkk : k0 = k
      · subst hkk
        simp [CallableLib.applyOp, CallableLib.add_template, hex, tlookup_dictSet_self]
      · simpa [CallableLib.applyOp, CallableLib.add_template, hex,
          tlookup_dictSet_ne m k k0 v hkk] using h
  | del k =>
    by_cases hnone : (tlookup k m).isNone
    · simpa [CallableLib.applyOp, CallableLib.delete_template, hnone] using h
    · by_cases hdef : k ∈ CallableLib.default_template_keys
      · simpa [CallableLib.applyOp, CallableLib.delete_template, hnone, hdef] using h
      · have hkk : k0 ≠ k := fun hEq => hdef (hEq ▸ hk)
        simpa [CallableLib.applyOp, CallableLib.delete_template, hnone, hdef,
          tlookup_dictDel_ne m k k0 hkk] using h

theorem protected_isSome_runOps (ops : List CallableLib.TOp) (k0 : String)
    (hk : k0 ∈ CallableLib.default_template_keys) :
    ∀ m : List (String × String), (tlookup k0 m).isSome = true →
      (tlookup k0 (CallableLib.runOps m ops)).isSome = true := by
  induction ops with
  | nil => intro m h; simpa [CallableLib.runOps] using h
  | cons op rest ih =>
    intro m h
    simpa [CallableLib.runOps] using ih _ (protected_isSome_applyOp m op k0 hk h)

theorem initial_has_defaults (k0 : String)
    (hk : k0 ∈ CallableLib.default_template_keys) :
    (tlookup k0 CallableLib.initial_templates).isSome = true := by
  fin_cases hk <;> decide

/-- Claim C9 (confirmed): after any sequence of template-registry calls
starting from the built-in registry, `delete_template` on a protected
default key (such as `"pr_creation"`) always raises and leaves the
registry unchanged with the key still registered, and `delete_template`
on a key that is not registered always raises. -/
theorem c9_delete_template_protected_and_missing
    (ops : List CallableLib.TOp) (k : String) :
    (k ∈ CallableLib.default_template_keys →
      CallableLib.delete_template (CallableLib.runOps CallableLib.initial_templates ops) k
        = Except.error ("Cannot delete default template: " ++ k)
      ∧ CallableLib.applyOp (CallableLib.runOps CallableLib.initial_templates ops) (CallableLib.TOp.del k)
          = CallableLib.runOps CallableLib.initial_templates ops
      ∧ (tlookup k (CallableLib.runOps CallableLib.initial_templates ops)).isSome = true)
    ∧ (tlookup k (CallableLib.runOps CallableLib.initial_templates ops) = none →
      CallableLib.delete_template (CallableLib.runOps CallableLib.initial_templates ops) k
        = Except.error ("Unknown template key: " ++ k)) := by
  constructor
  · intro hk
    have hreg : (tlookup k (CallableLib.runOps CallableLib.initial_templates ops)).isSome = true :=
      protected_isSome_runOps ops k hk CallableLib.initial_templates (initial_has_defaults k hk)
    have hdel :
        CallableLib.delete_template (CallableLib.runOps CallableLib.initial_templates ops) k
          = Except.error ("Cannot delete default template: " ++ k) := by
      simp [CallableLib.delete_template, Option.isNone_iff_eq_none, hk,
        Option.isSome_iff_exists.mp hreg]
      intro hnone
      rw [hnone] at hreg
      simp at hreg
    exact ⟨hdel, by simp [CallableLib.applyOp, hdel], hreg⟩
  · intro hnone
    simp [CallableLib.delete_template, hnone]

/-- Witness for C9: after adding a custom template, deleting the
protected default `"pr_creation"` raises and the key stays registered;
deleting the unregistered key `"no_such_template"` raises. -/
theorem c9_witness :
    (CallableLib.delete_template
        (CallableLib.runOps CallableLib.initial_templates
          [CallableLib.TOp.add "my_template" "do: \x7bcontext\x7d"]) "pr_creation"
      = Except.error "Cannot delete default template: pr_creation")
    ∧ (tlookup "pr_creation"
        (CallableLib.runOps CallableLib.initial_templates
          [CallableLib.TOp.add "my_template" "do: \x7bcontext\x7d"])).isSome = true
    ∧ (CallableLib.delete_template
        (CallableLib.runOps CallableLib.initial_templates
          [CallableLib.TOp.add "my_template" "do: \x7bcontext\x7d"]) "no_such_template"
      = Except.error "Unknown template key: no_such_template") := by
  refine ⟨?_, ?_, ?_⟩
  · exact ((c9_delete_template_protected_and_missing
      [CallableLib.TOp.add "my_template" "do: \x7bcontext\x7d"] "pr_creation").1
      (by decide)).1
  · exact ((c9_delete_template_protected_and_missing
      [CallableLib.TOp.add "my_template" "do: \x7bcontext\x7d"] "pr_creation").1
      (by decide)).2.2
  · exact (c9_delete_template_protected_and_missing
      [CallableLib.TOp.add "my_template" "do: \x7bcontext\x7d"] "no_such_template").2
      (by decide)

/-! ### The polling loop of `_execute_template` -/

theorem pollLoopAux_timeout (timeout : Nat) (tid : String)
    (polls : List (Nat × Except String CallableLib.Snapshot))
    (hall : ∀ p ∈ polls, ∃ s, p.2 = Except.ok s ∧ (s.status = "pending" ∨ s.status = "running"))
    (hex : ∃ p ∈ polls, timeout < p.1) :
    CallableLib.pollLoopAux timeout tid polls =
      CallableLib.LoopRes.ret
        (CallableLib.Outcome.statusMessage "timeout"
          ("Task " ++ tid ++ " timed out after " ++ toString timeout ++ " seconds"))
        "timeout" := by
  induction polls with
  | nil => simp at hex
  | cons p rest ih =>
    obtain ⟨el, r⟩ := p
    by_cases hel : el < timeout
    · obtain ⟨s, hs, hstat⟩ := hall (el, r) (List.mem_cons_self _ _)
      have hs2 : r = Except.ok s := hs
      subst hs2
      have hrest : CallableLib.pollLoopAux timeout tid ((el, Except.ok s) :: rest)
          = CallableLib.pollLoopAux timeout tid rest := by
        rcases hstat with h | h <;>
          simp [CallableLib.pollLoopAux, hel, h]
      rw [hrest]
      refine ih (fun q hq => hall q (List.mem_cons_of_mem _ hq)) ?_
      obtain ⟨q, hq, hlt⟩ := hex
      rcases List.mem_cons.mp hq with hhead | htail
      · exfalso
        rw [hhead] at hlt
        exact Nat.lt_asymm hel hlt
      · exact ⟨q, htail, hlt⟩
    · simp [CallableLib.pollLoopAux, hel]

/-- Claim C2 (confirmed): in `_execute_template`, when every poll before
the deadline reports a non-terminal status (`pending`/`running`) and the
elapsed wall-clock time exceeds the timeout, the call stops polling and
RETURNS the timeout dict (no exception), and the history entry is marked
timeout, not completed.  (`run_codegen_task` of
`codegen_mcp_server.py` takes no timeout parameter at all, so no call of
it satisfies the elapsed-time premise of the claim.) -/
theorem c2_timeout_returns_timeout_outcome
    (templates : List (String × String)) (timeout : Nat)
    (key ctx : String) (addl : Option String) (backend : CallableLib.BackendRun)
    (tmpl base task_id : String)
    (hlook : tlookup key templates = some tmpl)
    (hfmt : Fmt.pyFormatContext tmpl ctx = Except.ok base)
    (hsub : backend.submit (CallableLib.appendParams base addl) = Except.ok task_id)
    (hall : ∀ p ∈ backend.polls,
      ∃ s, p.2 = Except.ok s ∧ (s.status = "pending" ∨ s.status = "running"))
    (hex : ∃ p ∈ backend.polls, timeout < p.1) :
    CallableLib.execute_template templates timeout key ctx addl backend
      = CallableLib.ExecResult.returned
          (CallableLib.Outcome.statusMessage "timeout"
            ("Task " ++ task_id ++ " timed out after " ++ toString timeout ++ " seconds"))
          (some "timeout") := by
  simp [CallableLib.execute_template, hlook, hfmt, CallableLib.submitAndPoll, hsub,
    pollLoopAux_timeout timeout task_id backend.polls hall hex]

/-- Witness for C2: with a one-second timeout and a backend that keeps
reporting `running`, the call returns the timeout dict and the history
entry reads timeout. -/
theorem c2_witness :
    CallableLib.execute_template [("t", "ask: \x7bcontext\x7d")] 1 "t" "c" none
      { submit := fun _ => Except.ok "t1",
        polls := [(0, Except.ok { status := "running", result := none, error := none }),
                  (2, Except.ok { status := "running", result := none, error := none })] }
      = CallableLib.ExecResult.returned
          (CallableLib.Outcome.statusMessage "timeout" "Task t1 timed out after 1 seconds")
          (some "timeout") := by
  refine c2_timeout_returns_timeout_outcome _ 1 "t" "c" none _ "ask: \x7bcontext\x7d" "ask: c" "t1"
    rfl rfl rfl ?_ ?_
  · intro p hp
    rcases List.mem_cons.mp hp with h | h
    · exact ⟨_, by rw [h], Or.inr rfl⟩
    · rcases List.mem_cons.mp h with h2 | h2
      · exact ⟨_, by rw [h2], Or.inr rfl⟩
      · simp at h2
  · exact ⟨(2, Except.ok { status := "running", result := none, error := none }),
      by simp, by norm_num⟩

/-- Claim C1 as stated is false: with the real default registry and a
backend whose poll reports status `failed` with error detail `"boom"`,
`_execute_template` does stop and return a failure dict, but the returned
message is the synthesized `"Task t1 failed with status: failed"`, which
is not the backend error message `"boom"`. -/
theorem c1_counterexample :
    CallableLib.execute_template CallableLib.initial_templates 300 "pr_creation" "c" none
      { submit := fun _ => Except.ok "t1",
        polls := [(0, Except.ok { status := "failed", result := none, error := some "boom" })] }
      = CallableLib.ExecResult.returned
          (CallableLib.Outcome.statusMessage "failed" "Task t1 failed with status: failed")
          (some "failed")
    ∧ ("Task t1 failed with status: failed" : String) ≠ "boom" := by
  exact ⟨rfl, by decide⟩

/-- Claim C1 (amended): when a poll before the deadline reports status
`"failed"`, `_execute_template` stops polling and returns (does not
raise) a failure dict whose message is the synthesized
`"Task <id> failed with status: failed"` — not the backend error
detail, which is never read; a backend status `"error"` is NOT treated
as terminal and polling simply continues; and `run_codegen_task` of
`codegen_mcp_server.py` raises `RuntimeError("Task failed")` on a failed
status instead of returning an outcome. -/
theorem c1_amended_failed_handling :
    (∀ (templates : List (String × String)) (timeout : Nat) (key ctx : String)
       (addl : Option String) (backend : CallableLib.BackendRun)
       (tmpl base task_id : String) (el : Nat) (s : CallableLib.Snapshot)
       (rest : List (Nat × Except String CallableLib.Snapshot)),
      tlookup key templates = some tmpl →
      Fmt.pyFormatContext tmpl ctx = Except.ok base →
      backend.submit (CallableLib.appendParams base addl) = Except.ok task_id →
      backend.polls = (el, Except.ok s) :: rest →
      el < timeout →
      s.status = "failed" →
      CallableLib.execute_template templates timeout key ctx addl backend
        = CallableLib.ExecResult.returned
            (CallableLib.Outcome.statusMessage "failed"
              ("Task " ++ task_id ++ " failed with status: failed"))
            (some "failed"))
    ∧ (∀ (timeout : Nat) (tid : String) (el : Nat) (s : CallableLib.Snapshot)
         (rest : List (Nat × Except String CallableLib.Snapshot)),
      el < timeout →
      s.status = "error" →
      CallableLib.pollLoopAux timeout tid ((el, Except.ok s) :: rest)
        = CallableLib.pollLoopAux timeout tid rest)
    ∧ (∀ (template_id query : String)
         (submit : String → Except String Unit) (tmpl : String)
         (s : CallableLib.Snapshot) (rest : List (Except String CallableLib.Snapshot)),
      tlookup template_id CodegenMcpServer.TEMPLATES = some tmpl →
      submit (tmpl.replace "agentinputquery" query) = Except.ok () →
      s.status = "failed" →
      CodegenMcpServer.run_codegen_task template_id query true submit (Except.ok s :: rest)
        = CodegenMcpServer.SrvResult.raised "Task failed") := by
  refine ⟨?_, ?_, ?_⟩
  · intro templates timeout key ctx addl backend tmpl base task_id el s rest
      hlook hfmt hsub hpolls hel hstat
    simp [CallableLib.execute_template, hlook, hfmt, CallableLib.submitAndPoll, hsub,
      hpolls, CallableLib.pollLoopAux, hel, hstat]
    rw [String.append_assoc]
    rfl
  · intro timeout tid el s rest hel hstat
    simp [CallableLib.pollLoopAux, hel, hstat]
  · intro template_id query submit tmpl s rest hlook hsub hstat
    simp [CodegenMcpServer.run_codegen_task, hlook, hsub, CodegenMcpServer.srvPollLoop, hstat]

/-- Witness for C1 (amended): a concrete failed poll for each of the
three conjuncts. -/
theorem c1_amended_witness :
    CallableLib.execute_template [("t", "ask: \x7bcontext\x7d")] 300 "t" "c" none
      { submit := fun _ => Except.ok "t7",
        polls := [(0, Except.ok { status := "failed", result := none, error := some "boom" })] }
      = CallableLib.ExecResult.returned
          (CallableLib.Outcome.statusMessage "failed" "Task t7 failed with status: failed")
          (some "failed")
    ∧ CallableLib.pollLoopAux 300 "t7"
        [(0, Except.ok { status := "error", result := none, error := some "boom" })]
      = CallableLib.pollLoopAux 300 "t7" []
    ∧ CodegenMcpServer.run_codegen_task "create_pr" "q" true (fun _ => Except.ok ())
        [Except.ok { status := "failed", result := none, error := some "boom" }]
      = CodegenMcpServer.SrvResult.raised "Task failed" := by
  refine ⟨?_, ?_, ?_⟩
  · exact c1_amended_failed_handling.1 [("t", "ask: \x7bcontext\x7d")] 300 "t" "c" none
      _ "ask: \x7bcontext\x7d" "ask: c" "t7" 0 _ [] rfl rfl rfl rfl (by norm_num) rfl
  · exact c1_amended_failed_handling.2.1 300 "t7" 0 _ [] (by norm_num) rfl
  · exact c1_amended_failed_handling.2.2 "create_pr" "q" _
      "\x7bPromptTemplate1(withPRsettinginstructions(ihavethispromptmyself)+agentinputquery\x7d"
      _ [] rfl rfl rfl

/-- Claim C5 (confirmed): an unregistered `templateKey` makes
`_execute_template` raise `ValueError("Unknown template key: ...")` and
makes `run_codegen_task` raise a ValueError naming the key,
in both cases for EVERY backend oracle — i.e. before any submission or
network interaction, whose behaviour cannot influence the outcome. -/
theorem c5_unknown_template_fails_before_network :
    (∀ (templates : List (String × String)) (timeout : Nat) (key ctx : String)
       (addl : Option String) (backend : CallableLib.BackendRun),
      tlookup key templates = none →
      CallableLib.execute_template templates timeout key ctx addl backend
        = CallableLib.ExecResult.raised ("Unknown template key: " ++ key))
    ∧ (∀ (template_id query : String) (have_credentials : Bool)
         (submit : String → Except String Unit)
         (polls : List (Except String CallableLib.Snapshot)),
      tlookup template_id CodegenMcpServer.TEMPLATES = none →
      CodegenMcpServer.run_codegen_task template_id query have_credentials submit polls
        = CodegenMcpServer.SrvResult.raised
            ("Template \x27" ++ template_id ++ "\x27 not found")) := by
  constructor
  · intro templates timeout key ctx addl backend h
    simp [CallableLib.execute_template, h]
  · intro template_id query have_credentials submit polls h
    simp [CodegenMcpServer.run_codegen_task, h]

/-- Witness for C5: the key `"no_such_template"` is registered in
neither registry; both calls raise at once, with arbitrary backends. -/
theorem c5_witness :
    CallableLib.execute_template CallableLib.initial_templates 300 "no_such_template" "c" none
      { submit := fun _ => Except.ok "t1",
        polls := [(0, Except.ok { status := "completed", result := some "R", error := none })] }
      = CallableLib.ExecResult.raised "Unknown template key: no_such_template"
    ∧ CodegenMcpServer.run_codegen_task "no_such_template" "q" true (fun _ => Except.ok ())
        [Except.ok { status := "completed", result := some "R", error := none }]
      = CodegenMcpServer.SrvResult.raised "Template \x27no_such_template\x27 not found" := by
  exact ⟨c5_unknown_template_fails_before_network.1 _ 300 "no_such_template" "c" none _
      (by decide),
    c5_unknown_template_fails_before_network.2 "no_such_template" "q" true _ _ (by decide)⟩

/-- Claim C6 as stated is false for `run_codegen_task` of
`codegen_mcp_server.py`: a transport error raised while submitting is not
caught anywhere in that coroutine, so the raw exception propagates to the
caller instead of becoming an outcome value. -/
theorem c6_counterexample :
    CodegenMcpServer.run_codegen_task "create_pr" "q" true
      (fun _ => Except.error "Connection refused") []
      = CodegenMcpServer.SrvResult.raised "Connection refused" := rfl

/-- Claim C6 (amended): in the callable library every exception raised
during submission or polling is caught by the handler of `_execute_template`
and RETURNED as the `\x7b"status": "error", "message": str(e)\x7d` dict
(with no history entry on a submit failure, and the entry left
pending on a poll failure); the FastMCP server function `run_codegen_task`,
by contrast, catches nothing (see the counterexample). -/
theorem c6_amended_errors_caught_in_callable :
    (∀ (templates : List (String × String)) (timeout : Nat) (key ctx : String)
       (addl : Option String) (backend : CallableLib.BackendRun) (tmpl base e : String),
      tlookup key templates = some tmpl →
      Fmt.pyFormatContext tmpl ctx = Except.ok base →
      backend.submit (CallableLib.appendParams base addl) = Except.error e →
      CallableLib.execute_template templates timeout key ctx addl backend
        = CallableLib.ExecResult.returned
            (CallableLib.Outcome.statusMessage "error" e) none)
    ∧ (∀ (templates : List (String × String)) (timeout : Nat) (key ctx : String)
         (addl : Option String) (backend : CallableLib.BackendRun)
         (tmpl base task_id e : String),
      tlookup key templates = some tmpl →
      Fmt.pyFormatContext tmpl ctx = Except.ok base →
      backend.submit (CallableLib.appendParams base addl) = Except.ok task_id →
      CallableLib.pollLoopAux timeout task_id backend.polls = CallableLib.LoopRes.exn e →
      CallableLib.execute_template templates timeout key ctx addl backend
        = CallableLib.ExecResult.returned
            (CallableLib.Outcome.statusMessage "error" e) (some "pending")) := by
  constructor
  · intro templates timeout key ctx addl backend tmpl base e hlook hfmt hsub
    simp [CallableLib.execute_template, hlook, hfmt, CallableLib.submitAndPoll, hsub]
  · intro templates timeout key ctx addl backend tmpl base task_id e hlook hfmt hsub hloop
    simp [CallableLib.execute_template, hlook, hfmt, CallableLib.submitAndPoll, hsub, hloop]

/-- Witness for C6 (amended): a submission failure and a polling failure,
each converted into the error dict. -/
theorem c6_amended_witness :
    CallableLib.execute_template [("t", "ask: \x7bcontext\x7d")] 300 "t" "c" none
      { submit := fun _ => Except.error "ConnectTimeout", polls := [] }
      = CallableLib.ExecResult.returned
          (CallableLib.Outcome.statusMessage "error" "ConnectTimeout") none
    ∧ CallableLib.execute_template [("t", "ask: \x7bcontext\x7d")] 300 "t" "c" none
        { submit := fun _ => Except.ok "t4",
          polls := [(0, Except.error "ReadTimeout")] }
      = CallableLib.ExecResult.returned
          (CallableLib.Outcome.statusMessage "error" "ReadTimeout") (some "pending") := by
  constructor
  · exact c6_amended_errors_caught_in_callable.1 [("t", "ask: \x7bcontext\x7d")] 300 "t" "c"
      none _ "ask: \x7bcontext\x7d" "ask: c" "ConnectTimeout" rfl rfl rfl
  · exact c6_amended_errors_caught_in_callable.2 [("t", "ask: \x7bcontext\x7d")] 300 "t" "c"
      none _ "ask: \x7bcontext\x7d" "ask: c" "t4" "ReadTimeout" rfl rfl rfl rfl

/-- Claim C7 is right and the code is wrong (a defect the design text
itself flags): the Python `format` method returns a template that lacks the
`context` placeholder unchanged, so `execute_custom_template` renders
`"no placeholder here"` silently and proceeds to submit it instead of
failing with a template-render error. -/
theorem c7_missing_placeholder_renders_silently :
    Fmt.pyFormatContext "no placeholder here" "ctx" = Except.ok "no placeholder here"
    ∧ CallableLib.execute_custom_template 300 "no placeholder here" "ctx" none
        { submit := fun _ => Except.ok "t9",
          polls := [(0, Except.ok { status := "completed", result := some "R", error := none })] }
      = CallableLib.ExecResult.returned
          (CallableLib.Outcome.success (some "R")) (some "completed") := by
  exact ⟨rfl, rfl⟩

/-! ### Mock-mode refresh lemmas -/

theorem mock_step_error (t : CodegenAgentLib.CodegenTask) :
    (CodegenAgentLib.mock_step t).error = t.error := by
  simp only [CodegenAgentLib.mock_step]
  split_ifs <;> rfl

theorem mockIter_error_none (n : Nat) :
    ∀ t : CodegenAgentLib.CodegenTask, t.error = none →
      (CodegenAgentLib.mockIter n t).error = none := by
  induction n with
  | zero => intro t h; simpa [CodegenAgentLib.mockIter] using h
  | succ n ih =>
    intro t h
    simp only [CodegenAgentLib.mockIter]
    exact ih _ ((mock_step_error t).trans h)

/-- Claim C3 as stated is false in live (non-mock) mode: refreshing a
task whose status is already terminal (`"completed"`, with a populated
result) against a backend response that now reports `"failed"`
overwrites the terminal status and populates the error detail while the
old result stays in place — the status changes after being terminal AND
both Result and Error detail end up populated. -/
theorem c3_counterexample :
    CodegenAgentLib.isTerminal "completed" = true
    ∧ CodegenAgentLib.Agent.refresh_task_sync false
        { task_id := "t1", status := "completed", result := some "R", error := none }
        (fun _ => Except.ok { status_code := 200, text := "", status := some "failed",
                              result := none, error_detail := none })
        = Except.ok { task_id := "t1", status := "failed", result := some "R",
                      error := some "Unknown error" }
    ∧ ("failed" : String) ≠ "completed"
    ∧ (some "R" : Option String).isSome = true
    ∧ (some "Unknown error" : Option String).isSome = true := by
  exact ⟨rfl, rfl, by decide, rfl, rfl⟩

theorem pollLoopWrites_of_ret (timeout : Nat) (tid : String)
    (polls : List (Nat × Except String CallableLib.Snapshot))
    (out : CallableLib.Outcome) (h : String)
    (hret : CallableLib.pollLoopAux timeout tid polls = CallableLib.LoopRes.ret out h) :
    CallableLib.pollLoopWrites timeout polls = [h] := by
  revert hret
  induction polls with
  | nil =>
    intro hret
    simp [CallableLib.pollLoopAux] at hret
  | cons p rest ih =>
    obtain ⟨el, r⟩ := p
    intro hret
    by_cases hel : el < timeout
    · cases r with
      | error e => simp [CallableLib.pollLoopAux, hel] at hret
      | ok s =>
        by_cases hc : s.status = "completed"
        · simp [CallableLib.pollLoopAux, hel, hc] at hret
          simp [CallableLib.pollLoopWrites, hel, hc]
          exact hret.2
        · by_cases hf : s.status = "failed"
          · simp [CallableLib.pollLoopAux, hel, hc, hf] at hret
            simp [CallableLib.pollLoopWrites, hel, hc, hf]
            exact hret.2
          · simp only [CallableLib.pollLoopAux, hel, if_true, hc, hf,
              if_false, ite_false] at hret
            simpa [CallableLib.pollLoopWrites, hel, hc, hf] using ih hret
    · simp [CallableLib.pollLoopAux, hel] at hret
      simp [CallableLib.pollLoopWrites, hel]
      exact hret.2

/-- Claim C3 (amended): the registry half of the invariant holds in
`_execute_template`: the history entry appended by a call starts as
`"pending"` and receives at most one further status write, every such
write is terminal (`"completed"`, `"failed"` or `"timeout"`), and it is
the last thing the call does to the entry before returning — so a
history entry whose status is terminal is never subsequently changed
(and a call touches no entry other than the one it appended).  The task
half of the invariant holds in mock mode: a terminal task status is
never changed by any refresh variant, and Result and Error detail are
never both populated along a mock execution.  In live mode the task
half fails, because `refresh_task_sync` / `refresh_task` overwrite the
status with whatever the backend reports (see the counterexample). -/
theorem c3_amended_terminal_stability :
    (∀ (timeout : Nat) (polls : List (Nat × Except String CallableLib.Snapshot)),
      (∀ w ∈ CallableLib.pollLoopWrites timeout polls,
        w = "completed" ∨ w = "failed" ∨ w = "timeout")
      ∧ (CallableLib.pollLoopWrites timeout polls).length ≤ 1)
    ∧ (∀ (timeout : Nat) (tid : String)
         (polls : List (Nat × Except String CallableLib.Snapshot))
         (out : CallableLib.Outcome) (h : String),
      CallableLib.pollLoopAux timeout tid polls = CallableLib.LoopRes.ret out h →
      CallableLib.pollLoopWrites timeout polls = [h])
    ∧ (∀ (t : CodegenAgentLib.CodegenTask)
         (http : String → Except String CodegenAgentLib.RefreshResp),
      CodegenAgentLib.isTerminal t.status = true →
      CodegenAgentLib.Agent.refresh_task_sync true t http = Except.ok t)
    ∧ (∀ (t : CodegenAgentLib.CodegenTask)
         (http : String → Except String CodegenAgentLib.RefreshResp),
      CodegenAgentLib.isTerminal t.status = true →
      CodegenAgentLib.Agent.refresh_task true t http = Except.ok t)
    ∧ (∀ t : CodegenAgentLib.CodegenTask,
      CodegenAgentLib.isTerminal t.status = true →
      CodegenAgentLib.CodegenTask.refresh_sync none t = Except.ok t)
    ∧ (∀ (prompt uuid : String) (http : String → Except String CodegenAgentLib.RunResp)
         (n : Nat) (t0 : CodegenAgentLib.CodegenTask),
      CodegenAgentLib.Agent.run true prompt uuid http = Except.ok t0 →
      ¬((CodegenAgentLib.mockIter n t0).result.isSome = true
        ∧ (CodegenAgentLib.mockIter n t0).error.isSome = true)) := by
  refine ⟨?_, ?_, ?_, ?_, ?_, ?_⟩
  · intro timeout polls
    induction polls with
    | nil => simp [CallableLib.pollLoopWrites]
    | cons p rest ih =>
      obtain ⟨el, r⟩ := p
      by_cases hel : el < timeout
      · cases r with
        | error e => simp [CallableLib.pollLoopWrites, hel]
        | ok s =>
          by_cases hc : s.status = "completed"
          · simp [CallableLib.pollLoopWrites, hel, hc]
          · by_cases hf : s.status = "failed"
            · simp [CallableLib.pollLoopWrites, hel, hc, hf]
            · simpa [CallableLib.pollLoopWrites, hel, hc, hf] using ih
      · simp [CallableLib.pollLoopWrites, hel]
  · exact pollLoopWrites_of_ret
  · intro t http h
    simp [CodegenAgentLib.isTerminal] at h
    rcases h with (h | h) | h <;> simp [CodegenAgentLib.Agent.refresh_task_sync, h]
  · intro t http h
    simp [CodegenAgentLib.isTerminal] at h
    rcases h with (h | h) | h <;> simp [CodegenAgentLib.Agent.refresh_task, h]
  · intro t h
    simp [CodegenAgentLib.isTerminal] at h
    rcases h with (h | h) | h <;> simp [CodegenAgentLib.CodegenTask.refresh_sync, h]
  · intro prompt uuid http n t0 hrun
    simp [CodegenAgentLib.Agent.run] at hrun
    rintro ⟨-, herr⟩
    rw [mockIter_error_none n t0 (by rw [← hrun])] at herr
    simp at herr

/-- Witness for C3 (amended): concrete instances of each conjunct — a
run that times out writes the single terminal value `"timeout"` to its
history entry (a terminal write no later iteration can follow), a run
whose poll reports `failed` has the one-element write trace
`["failed"]`, a concrete completed mock task is left unchanged by all
three refresh variants, and after a mock submit and two refreshes
result and error are not both populated. -/
theorem c3_amended_witness :
    ("timeout" = "completed" ∨ "timeout" = "failed" ∨ "timeout" = "timeout")
    ∧ (CallableLib.pollLoopWrites 1
        [(0, Except.ok { status := "running", result := none, error := none }),
         (2, Except.ok { status := "running", result := none, error := none })]).length ≤ 1
    ∧ CallableLib.pollLoopWrites 300
        [(0, Except.ok { status := "failed", result := none, error := some "boom" })]
      = ["failed"]
    ∧ CodegenAgentLib.Agent.refresh_task_sync true
      { task_id := "m1", status := "completed", result := some "done", error := none }
      (fun _ => Except.error "offline")
      = Except.ok { task_id := "m1", status := "completed", result := some "done", error := none }
    ∧ CodegenAgentLib.Agent.refresh_task true
      { task_id := "m1", status := "completed", result := some "done", error := none }
      (fun _ => Except.error "offline")
      = Except.ok { task_id := "m1", status := "completed", result := some "done", error := none }
    ∧ CodegenAgentLib.CodegenTask.refresh_sync none
      { task_id := "m1", status := "failed", result := none, error := some "bad" }
      = Except.ok { task_id := "m1", status := "failed", result := none, error := some "bad" }
    ∧ ¬((CodegenAgentLib.mockIter 2
          { task_id := "mock_task_u", status := "pending", result := none, error := none }).result.isSome = true
        ∧ (CodegenAgentLib.mockIter 2
          { task_id := "mock_task_u", status := "pending", result := none, error := none }).error.isSome = true) := by
  refine ⟨?_, ?_, ?_, ?_, ?_, ?_, ?_⟩
  · exact (c3_amended_terminal_stability.1 1
      [(0, Except.ok { status := "running", result := none, error := none }),
       (2, Except.ok { status := "running", result := none, error := none })]).1
      "timeout" (by decide)
  · exact (c3_amended_terminal_stability.1 1
      [(0, Except.ok { status := "running", result := none, error := none }),
       (2, Except.ok { status := "running", result := none, error := none })]).2
  · exact c3_amended_terminal_stability.2.1 300 "t1" _
      (CallableLib.Outcome.statusMessage "failed" "Task t1 failed with status: failed")
      "failed" rfl
  · exact c3_amended_terminal_stability.2.2.1 _ _ (by decide)
  · exact c3_amended_terminal_stability.2.2.2.1 _ _ (by decide)
  · exact c3_amended_terminal_stability.2.2.2.2.1 _ (by decide)
  · exact c3_amended_terminal_stability.2.2.2.2.2 "p" "u" (fun _ => Except.error "offline")
      2 _ rfl

/-- Claim C4 as stated is false for the contrib agent mock mode: two
mock submissions of the SAME prompt (with different `uuid4` draws) reach
Completed on the second poll with DIFFERENT placeholder results, because
the placeholder is derived from the random task id, not from the
submitted prompt (which `run` does not even store in mock mode). -/
theorem c4_counterexample :
    CodegenAgentLib.Agent.run true "the same prompt" "a" (fun _ => Except.error "offline")
      = Except.ok { task_id := "mock_task_a", status := "pending", result := none, error := none }
    ∧ CodegenAgentLib.Agent.refresh_task_sync true
        { task_id := "mock_task_a", status := "pending", result := none, error := none }
        (fun _ => Except.error "offline")
      = Except.ok { task_id := "mock_task_a", status := "running", result := none, error := none }
    ∧ CodegenAgentLib.Agent.refresh_task_sync true
        { task_id := "mock_task_a", status := "running", result := none, error := none }
        (fun _ => Except.error "offline")
      = Except.ok { task_id := "mock_task_a", status := "completed",
                    result := some "Simulated result for task mock_task_a", error := none }
    ∧ CodegenAgentLib.Agent.run true "the same prompt" "b" (fun _ => Except.error "offline")
      = Except.ok { task_id := "mock_task_b", status := "pending", result := none, error := none }
    ∧ CodegenAgentLib.Agent.refresh_task_sync true
        { task_id := "mock_task_b", status := "running", result := none, error := none }
        (fun _ => Except.error "offline")
      = Except.ok { task_id := "mock_task_b", status := "completed",
                    result := some "Simulated result for task mock_task_b", error := none }
    ∧ (some "Simulated result for task mock_task_a" : Option String)
        ≠ some "Simulated result for task mock_task_b" := by
  exact ⟨rfl, rfl, rfl, rfl, rfl, by decide⟩

/-- Claim C4 (amended): in the contrib agent mock mode, `run` always
returns a locally synthesized Pending handle without consulting the HTTP
oracle, the first poll moves it to Running and the second to Completed —
but the placeholder result is `"Simulated result for task <task_id>"`,
derived from the uuid-bearing task id rather than from the prompt.  In
`mock_codegen.py` the placeholder IS deterministic and prompt-derived,
but the Running → Completed transition is time-based (one second after
construction), not poll-count-based. -/
theorem c4_amended_mock_behaviour :
    (∀ (prompt uuid : String) (http : String → Except String CodegenAgentLib.RunResp),
      CodegenAgentLib.Agent.run true prompt uuid http
        = Except.ok { task_id := "mock_task_" ++ uuid, status := "pending",
                      result := none, error := none })
    ∧ (∀ (t : CodegenAgentLib.CodegenTask)
         (http : String → Except String CodegenAgentLib.RefreshResp),
      t.status = "pending" →
      CodegenAgentLib.Agent.refresh_task_sync true t http
        = Except.ok { t with status := "running" })
    ∧ (∀ (t : CodegenAgentLib.CodegenTask)
         (http : String → Except String CodegenAgentLib.RefreshResp),
      t.status = "running" →
      CodegenAgentLib.Agent.refresh_task_sync true t http
        = Except.ok
            { t with status := "completed",
                     result := some ("Simulated result for task " ++ t.task_id) })
    ∧ (∀ (elapsed : ℚ) (t : MockCodegen.Task), elapsed < 1 →
      MockCodegen.Task.refresh elapsed t = { t with status := "running" })
    ∧ (∀ (elapsed : ℚ) (t : MockCodegen.Task), 1 ≤ elapsed →
      MockCodegen.Task.refresh elapsed t
        = { t with status := "completed",
                   result := some (MockCodegen.generate_mock_result t.prompt) }) := by
  refine ⟨?_, ?_, ?_, ?_, ?_⟩
  · intro prompt uuid http
    rfl
  · intro t http h
    simp [CodegenAgentLib.Agent.refresh_task_sync, h]
  · intro t http h
    simp [CodegenAgentLib.Agent.refresh_task_sync, h]
  · intro elapsed t h
    simp [MockCodegen.Task.refresh, h]
  · intro elapsed t h
    simp [MockCodegen.Task.refresh, not_lt.mpr h]

/-- Witness for C4 (amended): concrete mock runs for each conjunct; the
`mock_codegen` task completes with the prompt-derived placeholder. -/
theorem c4_amended_witness :
    CodegenAgentLib.Agent.run true "p" "u" (fun _ => Except.error "offline")
      = Except.ok { task_id := "mock_task_u", status := "pending", result := none, error := none }
    ∧ CodegenAgentLib.Agent.refresh_task_sync true
        { task_id := "mock_task_u", status := "pending", result := none, error := none }
        (fun _ => Except.error "offline")
      = Except.ok { task_id := "mock_task_u", status := "running", result := none, error := none }
    ∧ CodegenAgentLib.Agent.refresh_task_sync true
        { task_id := "mock_task_u", status := "running", result := none, error := none }
        (fun _ => Except.error "offline")
      = Except.ok { task_id := "mock_task_u", status := "completed",
                    result := some "Simulated result for task mock_task_u", error := none }
    ∧ MockCodegen.Task.refresh (1 / 2)
        (MockCodegen.Agent.run ("[CODE GENERATION TEMPLATE] sum even numbers"))
      = { prompt := "[CODE GENERATION TEMPLATE] sum even numbers",
          status := "running", result := none }
    ∧ MockCodegen.Task.refresh 2
        { prompt := "[CODE GENERATION TEMPLATE] sum even numbers",
          status := "running", result := none }
      = { prompt := "[CODE GENERATION TEMPLATE] sum even numbers",
          status := "completed", result := some MockCodegen.MockResult.code_generation } := by
  refine ⟨?_, ?_, ?_, ?_, ?_⟩
  · exact c4_amended_mock_behaviour.1 "p" "u" _
  · exact c4_amended_mock_behaviour.2.1 _ _ rfl
  · exact c4_amended_mock_behaviour.2.2.1 _ _ rfl
  · exact (c4_amended_mock_behaviour.2.2.2.1 (1 / 2) _ (by norm_num))
  · rw [c4_amended_mock_behaviour.2.2.2.2 2 _ (by norm_num)]
    have : MockCodegen.generate_mock_result "[CODE GENERATION TEMPLATE] sum even numbers"
        = MockCodegen.MockResult.code_generation := by decide
    rw [this]

/-- Claim C8 (confirmed): the synchronous and awaitable variants of the
Backend Client operations — `run` vs `run_async` and `refresh_task_sync`
vs `refresh_task` — compute identical results for every mode, prompt,
task and oracle response; they differ only in blocking semantics, which
the embedding abstracts away. -/
theorem c8_sync_async_behaviourally_equal :
    (∀ (mock_mode : Bool) (prompt uuid : String)
       (http : String → Except String CodegenAgentLib.RunResp),
      CodegenAgentLib.Agent.run mock_mode prompt uuid http
        = CodegenAgentLib.Agent.run_async mock_mode prompt uuid http)
    ∧ (∀ (mock_mode : Bool) (t : CodegenAgentLib.CodegenTask)
         (http : String → Except String CodegenAgentLib.RefreshResp),
      CodegenAgentLib.Agent.refresh_task_sync mock_mode t http
        = CodegenAgentLib.Agent.refresh_task mock_mode t http) :=
  ⟨fun _ _ _ _ => rfl, fun _ _ _ => rfl⟩

/-- Claim C10 (confirmed): the `pr-creation` HTTP endpoint stores and
returns a freshly-keyed Pending record with null result and null
completion timestamp, appends it to the task map without touching any
other entry, and only REGISTERS the background job (returned here as
data, unexecuted) — all agent work happens afterwards when that job
runs.  The sibling template endpoints are identical up to the endpoint
string. -/
theorem c10_endpoint_returns_pending_record
    (tasks : List (String × McpServer.TaskRec)) (uuid now context : String)
    (addl : Option String) (hfresh : tlookup uuid tasks = none) :
    (McpServer.pr_creation_endpoint tasks uuid now context addl).2.1
      = { task_id := uuid, status := "pending", result := none,
          created_at := now, completed_at := none, endpoint := "pr_creation" }
    ∧ (McpServer.pr_creation_endpoint tasks uuid now context addl).1
      = tasks ++ [(uuid, (McpServer.pr_creation_endpoint tasks uuid now context addl).2.1)]
    ∧ tlookup uuid (McpServer.pr_creation_endpoint tasks uuid now context addl).1
      = some ((McpServer.pr_creation_endpoint tasks uuid now context addl).2.1)
    ∧ (∀ k, k ≠ uuid →
        tlookup k (McpServer.pr_creation_endpoint tasks uuid now context addl).1
          = tlookup k tasks)
    ∧ (McpServer.pr_creation_endpoint tasks uuid now context addl).2.2
      = { task_id := uuid, endpoint := "pr_creation", context := context,
          additional_params := addl } := by
  refine ⟨rfl, ?_, ?_, ?_, rfl⟩
  · exact dictSet_eq_append tasks uuid _ hfresh
  · exact tlookup_dictSet_self tasks uuid _
  · intro k hk
    exact tlookup_dictSet_ne tasks uuid k _ hk

/-- Witness for C10: a concrete request against an empty task map. -/
theorem c10_witness :
    (McpServer.pr_creation_endpoint [] "u1" "2026-01-01T00:00:00" "ctx" none).2.1
      = { task_id := "u1", status := "pending", result := none,
          created_at := "2026-01-01T00:00:00", completed_at := none, endpoint := "pr_creation" }
    ∧ tlookup "u1" (McpServer.pr_creation_endpoint [] "u1" "2026-01-01T00:00:00" "ctx" none).1
      = some { task_id := "u1", status := "pending", result := none,
               created_at := "2026-01-01T00:00:00", completed_at := none,
               endpoint := "pr_creation" } := by
  have h := c10_endpoint_returns_pending_record [] "u1" "2026-01-01T00:00:00" "ctx" none rfl
  exact ⟨h.1, by rw [h.2.2.1, h.1]⟩
